import Mathlib

/-!
Verification of the aprio-swarm coordination core against its specification.

The Rust sources are shallowly embedded in Lean:
* `serde_json` values are modelled by the `Json` AST; `serde_json::to_vec`
  followed by `serde_json::from_slice` is modelled at the AST level (the
  UTF-8 text encoding of a JSON document is injective, and serde_json's
  float printing round-trips, so the byte layer is abstracted away).
* Rust `u64`/`u32`/`usize` are `Nat` (the code never overflows them),
  `f32` values are exact rationals (ℚ); the one place where IEEE NaN is
  observable -- the scheduler's `0.0 / 0.0` coverage fraction on an empty
  required-capability set -- is modelled explicitly as `Option ℚ` with
  `none` for NaN.
* `Uuid` and `chrono::DateTime<Utc>` are modelled by their canonical string
  representations, `HashMap` by association lists, tokio mpsc channels by
  explicit descriptors, and the effectful fresh-UUID / clock calls by
  explicit arguments.
-/

namespace AprioSwarm

/-- JSON value AST, modelling `serde_json::Value` and the wire form of every
serialized payload. Numbers are exact rationals (serde_json numbers are
i64/u64/f64; all are embedded in ℚ). -/
inductive Json where
  | null : Json
  | bool (b : Bool) : Json
  | num (q : ℚ) : Json
  | str (s : String) : Json
  | arr (items : List Json) : Json
  | obj (fields : List (String × Json)) : Json

/-- Model of `uuid::Uuid`: its canonical hyphenated string form. -/
abbrev Uuid := String

/-- Model of `chrono::DateTime<Utc>`: its RFC 3339 string form. -/
abbrev UtcTime := String

/-- Model of Rust `f32` (exact; see the module comment). -/
abbrev F32 := ℚ

/-- Field lookup in a serialized JSON object, as serde's derived
deserializers perform it (first binding wins). -/
def jLookup (fields : List (String × Json)) (key : String) : Option Json :=
  (fields.find? (fun p => p.1 == key)).map (fun p => p.2)

def Json.asStr : Json → Option String
  | .str s => some s
  | _ => none

def Json.asBool : Json → Option Bool
  | .bool b => some b
  | _ => none

def Json.asRat : Json → Option ℚ
  | .num q => some q
  | _ => none

/-- Decode an unsigned integer, as serde rejects fractional or negative
numbers for `u64`/`u32`/`usize`. -/
def Json.asNat : Json → Option ℕ
  | .num q => if 0 ≤ q.num ∧ q.den = 1 then some q.num.toNat else none
  | _ => none

def Json.asArr : Json → Option (List Json)
  | .arr items => some items
  | _ => none

def Json.asObj : Json → Option (List (String × Json))
  | .obj fields => some fields
  | _ => none

def encNat (n : ℕ) : Json := .num (n : ℚ)

def encList {α : Type} (f : α → Json) (xs : List α) : Json := .arr (xs.map f)

/-- Decode every element of a JSON array in sequence, failing if any
element fails (serde's `Vec<T>` deserializer). -/
def decAll {α : Type} (g : Json → Option α) : List Json → Option (List α)
  | [] => some []
  | j :: tl => match g j, decAll g tl with
    | some a, some as_ => some (a :: as_)
    | _, _ => none

def decList {α : Type} (g : Json → Option α) (j : Json) : Option (List α) :=
  (j.asArr).bind (decAll g)

/-- serde's `Option<T>`: `None` is `null`, `Some v` is the encoding of `v`. -/
def encOpt {α : Type} (f : α → Json) : Option α → Json
  | none => .null
  | some a => f a

/-- serde's `Option<T>` deserializer: `null` means `None`, anything else is
handed to the inner deserializer. -/
def decOpt {α : Type} (g : Json → Option α) : Json → Option (Option α)
  | .null => some none
  | j => (g j).map some

theorem asNat_encNat (n : ℕ) : (encNat n).asNat = some n := by
  simp [encNat, Json.asNat]

theorem decAll_map_eq_some {α : Type} {f : α → Json} {g : Json → Option α}
    (h : ∀ a, g (f a) = some a) (xs : List α) : decAll g (xs.map f) = some xs := by
  induction xs with
  | nil => rfl
  | cons a tl ih => simp [decAll, h a, ih]

theorem decList_encList {α : Type} {f : α → Json} {g : Json → Option α}
    (h : ∀ a, g (f a) = some a) (xs : List α) :
    decList g (encList f xs) = some xs := by
  simp [decList, encList, Json.asArr, decAll_map_eq_some h]

theorem decOpt_encOpt {α : Type} {f : α → Json} {g : Json → Option α}
    (hnull : ∀ a, f a ≠ Json.null) (h : ∀ a, g (f a) = some a) (o : Option α) :
    decOpt g (encOpt f o) = some o := by
  cases o with
  | none => rfl
  | some a =>
    have hfa := h a
    rcases hj : f a with _ | b | q | s | items | fields
    · exact absurd hj (hnull a)
    all_goals rw [hj] at hfa; simpa [encOpt, decOpt, hj] using congrArg (Option.map some) hfa

@[simp] theorem asStr_str (s : String) : (Json.str s).asStr = some s := rfl

@[simp] theorem asBool_bool (b : Bool) : (Json.bool b).asBool = some b := rfl

@[simp] theorem asRat_num (q : ℚ) : (Json.num q).asRat = some q := rfl

@[simp] theorem asObj_obj (fields : List (String × Json)) :
    (Json.obj fields).asObj = some fields := rfl

@[simp] theorem decOpt_encOpt_str (o : Option String) :
    decOpt Json.asStr (encOpt Json.str o) = some o := by
  cases o <;> rfl

/-! ## Core data model (src/crates/swarm-core/src/types.rs) -/

/-- `DocumentType` from types.rs. -/
inductive DocumentType where
  | Pdf | Word | Text | Html | Markdown | Excel
  | PowerPoint | Image | Audio | Video | Unknown
deriving DecidableEq

/-- `TaskPriority` from types.rs (`Low < Normal < High < Critical`). -/
inductive TaskPriority where
  | Low | Normal | High | Critical
deriving DecidableEq

/-- `TaskStatus` from types.rs. -/
inductive TaskStatus where
  | Pending | Assigned | Processing | Completed | Failed | Cancelled | Retrying
deriving DecidableEq

/-- `DocumentProcessingType` from types.rs. -/
inductive DocumentProcessingType where
  | TextExtraction | MetadataExtraction | LanguageDetection | KeywordExtraction
  | SentimentAnalysis | Classification | VectorEmbedding
deriving DecidableEq

/-- `TextAnalysisType` from types.rs. -/
inductive TextAnalysisType where
  | LanguageDetection | KeywordExtraction | SentimentAnalysis
  | NamedEntityRecognition | TopicModeling | Summarization
deriving DecidableEq

/-- `VectorIndexType` from types.rs. -/
inductive VectorIndexType where
  | DenseEmbedding | SparseEmbedding | HybridEmbedding | SemanticSearch
deriving DecidableEq

def encDocumentType : DocumentType → Json
  | .Pdf => .str "Pdf"
  | .Word => .str "Word"
  | .Text => .str "Text"
  | .Html => .str "Html"
  | .Markdown => .str "Markdown"
  | .Excel => .str "Excel"
  | .PowerPoint => .str "PowerPoint"
  | .Image => .str "Image"
  | .Audio => .str "Audio"
  | .Video => .str "Video"
  | .Unknown => .str "Unknown"

def decDocumentType : Json → Option DocumentType
  | .str "Pdf" => some .Pdf
  | .str "Word" => some .Word
  | .str "Text" => some .Text
  | .str "Html" => some .Html
  | .str "Markdown" => some .Markdown
  | .str "Excel" => some .Excel
  | .str "PowerPoint" => some .PowerPoint
  | .str "Image" => some .Image
  | .str "Audio" => some .Audio
  | .str "Video" => some .Video
  | .str "Unknown" => some .Unknown
  | _ => none

@[simp] theorem decDocumentType_enc (d : DocumentType) :
    decDocumentType (encDocumentType d) = some d := by
  cases d <;> rfl

def encTaskPriority : TaskPriority → Json
  | .Low => .str "Low"
  | .Normal => .str "Normal"
  | .High => .str "High"
  | .Critical => .str "Critical"

def decTaskPriority : Json → Option TaskPriority
  | .str "Low" => some .Low
  | .str "Normal" => some .Normal
  | .str "High" => some .High
  | .str "Critical" => some .Critical
  | _ => none

@[simp] theorem decTaskPriority_enc (p : TaskPriority) :
    decTaskPriority (encTaskPriority p) = some p := by
  cases p <;> rfl

def encTaskStatus : TaskStatus → Json
  | .Pending => .str "Pending"
  | .Assigned => .str "Assigned"
  | .Processing => .str "Processing"
  | .Completed => .str "Completed"
  | .Failed => .str "Failed"
  | .Cancelled => .str "Cancelled"
  | .Retrying => .str "Retrying"

def decTaskStatus : Json → Option TaskStatus
  | .str "Pending" => some .Pending
  | .str "Assigned" => some .Assigned
  | .str "Processing" => some .Processing
  | .str "Completed" => some .Completed
  | .str "Failed" => some .Failed
  | .str "Cancelled" => some .Cancelled
  | .str "Retrying" => some .Retrying
  | _ => none

@[simp] theorem decTaskStatus_enc (s : TaskStatus) :
    decTaskStatus (encTaskStatus s) = some s := by
  cases s <;> rfl

def encDocumentProcessingType : DocumentProcessingType → Json
  | .TextExtraction => .str "TextExtraction"
  | .MetadataExtraction => .str "MetadataExtraction"
  | .LanguageDetection => .str "LanguageDetection"
  | .KeywordExtraction => .str "KeywordExtraction"
  | .SentimentAnalysis => .str "SentimentAnalysis"
  | .Classification => .str "Classification"
  | .VectorEmbedding => .str "VectorEmbedding"

def decDocumentProcessingType : Json → Option DocumentProcessingType
  | .str "TextExtraction" => some .TextExtraction
  | .str "MetadataExtraction" => some .MetadataExtraction
  | .str "LanguageDetection" => some .LanguageDetection
  | .str "KeywordExtraction" => some .KeywordExtraction
  | .str "SentimentAnalysis" => some .SentimentAnalysis
  | .str "Classification" => some .Classification
  | .str "VectorEmbedding" => some .VectorEmbedding
  | _ => none

@[simp] theorem decDocumentProcessingType_enc (t : DocumentProcessingType) :
    decDocumentProcessingType (encDocumentProcessingType t) = some t := by
  cases t <;> rfl

def encTextAnalysisType : TextAnalysisType → Json
  | .LanguageDetection => .str "LanguageDetection"
  | .KeywordExtraction => .str "KeywordExtraction"
  | .SentimentAnalysis => .str "SentimentAnalysis"
  | .NamedEntityRecognition => .str "NamedEntityRecognition"
  | .TopicModeling => .str "TopicModeling"
  | .Summarization => .str "Summarization"

def decTextAnalysisType : Json → Option TextAnalysisType
  | .str "LanguageDetection" => some .LanguageDetection
  | .str "KeywordExtraction" => some .KeywordExtraction
  | .str "SentimentAnalysis" => some .SentimentAnalysis
  | .str "NamedEntityRecognition" => some .NamedEntityRecognition
  | .str "TopicModeling" => some .TopicModeling
  | .str "Summarization" => some .Summarization
  | _ => none

@[simp] theorem decTextAnalysisType_enc (t : TextAnalysisType) :
    decTextAnalysisType (encTextAnalysisType t) = some t := by
  cases t <;> rfl

def encVectorIndexType : VectorIndexType → Json
  | .DenseEmbedding => .str "DenseEmbedding"
  | .SparseEmbedding => .str "SparseEmbedding"
  | .HybridEmbedding => .str "HybridEmbedding"
  | .SemanticSearch => .str "SemanticSearch"

def decVectorIndexType : Json → Option VectorIndexType
  | .str "DenseEmbedding" => some .DenseEmbedding
  | .str "SparseEmbedding" => some .SparseEmbedding
  | .str "HybridEmbedding" => some .HybridEmbedding
  | .str "SemanticSearch" => some .SemanticSearch
  | _ => none

@[simp] theorem decVectorIndexType_enc (t : VectorIndexType) :
    decVectorIndexType (encVectorIndexType t) = some t := by
  cases t <;> rfl

/-- `metadata` maps (`HashMap<String, serde_json::Value>`) are modelled as
association lists; serde serializes them as a JSON object and yields the
same bindings back. -/
abbrev Metadata := List (String × Json)

def encMetadata (m : Metadata) : Json := .obj m

def decMetadata (j : Json) : Option Metadata := j.asObj

@[simp] theorem decMetadata_enc (m : Metadata) : decMetadata (encMetadata m) = some m := rfl

/-- `DocumentContent` from types.rs. -/
inductive DocumentContent where
  | Text (text : String)
  | Binary (bytes : List ℕ)
  | Reference (storage_id : String) (path : String) (access_token : Option String)

def encDocumentContent : DocumentContent → Json
  | .Text s => .obj [("Text", .str s)]
  | .Binary bs => .obj [("Binary", encList encNat bs)]
  | .Reference sid p tok => .obj [("Reference", .obj
      [("storage_id", .str sid), ("path", .str p), ("access_token", encOpt Json.str tok)])]

def decDocumentContent : Json → Option DocumentContent
  | .obj [("Text", v)] => v.asStr.map DocumentContent.Text
  | .obj [("Binary", v)] => (decList Json.asNat v).map DocumentContent.Binary
  | .obj [("Reference", v)] =>
      v.asObj.bind fun fields =>
      ((jLookup fields "storage_id").bind Json.asStr).bind fun sid =>
      ((jLookup fields "path").bind Json.asStr).bind fun p =>
      ((jLookup fields "access_token").bind (decOpt Json.asStr)).map fun tok =>
      DocumentContent.Reference sid p tok
  | _ => none

@[simp] theorem decDocumentContent_enc (c : DocumentContent) :
    decDocumentContent (encDocumentContent c) = some c := by
  cases c with
  | Text s => rfl
  | Binary bs =>
      simp [encDocumentContent, decDocumentContent, decList_encList asNat_encNat]
  | Reference sid p tok =>
      simp [encDocumentContent, decDocumentContent, jLookup]

/-- `Document` from types.rs. -/
structure Document where
  id : Uuid
  filename : String
  document_type : DocumentType
  content : DocumentContent
  metadata : Metadata
  created_at : UtcTime
  size_bytes : ℕ

def encDocument (d : Document) : Json := .obj
  [ ("id", .str d.id)
  , ("filename", .str d.filename)
  , ("document_type", encDocumentType d.document_type)
  , ("content", encDocumentContent d.content)
  , ("metadata", encMetadata d.metadata)
  , ("created_at", .str d.created_at)
  , ("size_bytes", encNat d.size_bytes) ]

def decDocument (j : Json) : Option Document :=
  j.asObj.bind fun f =>
  ((jLookup f "id").bind Json.asStr).bind fun id =>
  ((jLookup f "filename").bind Json.asStr).bind fun filename =>
  ((jLookup f "document_type").bind decDocumentType).bind fun document_type =>
  ((jLookup f "content").bind decDocumentContent).bind fun content =>
  ((jLookup f "metadata").bind decMetadata).bind fun metadata =>
  ((jLookup f "created_at").bind Json.asStr).bind fun created_at =>
  ((jLookup f "size_bytes").bind Json.asNat).map fun size_bytes =>
  { id, filename, document_type, content, metadata, created_at, size_bytes }

@[simp] theorem decDocument_enc (d : Document) : decDocument (encDocument d) = some d := by
  simp [decDocument, encDocument, jLookup, asNat_encNat]

/-- `TaskType` from types.rs. -/
inductive TaskType where
  | DocumentProcessing (document_type : DocumentType) (processing_type : DocumentProcessingType)
  | TextAnalysis (analysis_type : TextAnalysisType)
  | VectorIndexing (index_type : VectorIndexType)
  | Custom (name : String) (version : String)
deriving DecidableEq

def encTaskType : TaskType → Json
  | .DocumentProcessing dt pt => .obj [("DocumentProcessing", .obj
      [("document_type", encDocumentType dt), ("processing_type", encDocumentProcessingType pt)])]
  | .TextAnalysis at_ => .obj [("TextAnalysis", .obj [("analysis_type", encTextAnalysisType at_)])]
  | .VectorIndexing it => .obj [("VectorIndexing", .obj [("index_type", encVectorIndexType it)])]
  | .Custom n v => .obj [("Custom", .obj [("name", .str n), ("version", .str v)])]

def decTaskType : Json → Option TaskType
  | .obj [("DocumentProcessing", v)] =>
      v.asObj.bind fun fields =>
      ((jLookup fields "document_type").bind decDocumentType).bind fun dt =>
      ((jLookup fields "processing_type").bind decDocumentProcessingType).map fun pt =>
      TaskType.DocumentProcessing dt pt
  | .obj [("TextAnalysis", v)] =>
      v.asObj.bind fun fields =>
      ((jLookup fields "analysis_type").bind decTextAnalysisType).map TaskType.TextAnalysis
  | .obj [("VectorIndexing", v)] =>
      v.asObj.bind fun fields =>
      ((jLookup fields "index_type").bind decVectorIndexType).map TaskType.VectorIndexing
  | .obj [("Custom", v)] =>
      v.asObj.bind fun fields =>
      ((jLookup fields "name").bind Json.asStr).bind fun n =>
      ((jLookup fields "version").bind Json.asStr).map fun ver =>
      TaskType.Custom n ver
  | _ => none

@[simp] theorem decTaskType_enc (t : TaskType) : decTaskType (encTaskType t) = some t := by
  cases t <;> simp [encTaskType, decTaskType, jLookup]

/-- `DocumentProcessingOptions` from types.rs. -/
structure DocumentProcessingOptions where
  extract_text : Bool
  extract_metadata : Bool
  detect_language : Bool
  extract_keywords : Bool
  generate_embeddings : Bool
  preserve_formatting : Bool
deriving DecidableEq

/-- `Default for DocumentProcessingOptions` from types.rs. -/
def DocumentProcessingOptions.default : DocumentProcessingOptions :=
  { extract_text := true, extract_metadata := true, detect_language := true
  , extract_keywords := true, generate_embeddings := false, preserve_formatting := false }

def encDocumentProcessingOptions (o : DocumentProcessingOptions) : Json := .obj
  [ ("extract_text", .bool o.extract_text)
  , ("extract_metadata", .bool o.extract_metadata)
  , ("detect_language", .bool o.detect_language)
  , ("extract_keywords", .bool o.extract_keywords)
  , ("generate_embeddings", .bool o.generate_embeddings)
  , ("preserve_formatting", .bool o.preserve_formatting) ]

def decDocumentProcessingOptions (j : Json) : Option DocumentProcessingOptions :=
  j.asObj.bind fun f =>
  ((jLookup f "extract_text").bind Json.asBool).bind fun extract_text =>
  ((jLookup f "extract_metadata").bind Json.asBool).bind fun extract_metadata =>
  ((jLookup f "detect_language").bind Json.asBool).bind fun detect_language =>
  ((jLookup f "extract_keywords").bind Json.asBool).bind fun extract_keywords =>
  ((jLookup f "generate_embeddings").bind Json.asBool).bind fun generate_embeddings =>
  ((jLookup f "preserve_formatting").bind Json.asBool).map fun preserve_formatting =>
  { extract_text, extract_metadata, detect_language
  , extract_keywords, generate_embeddings, preserve_formatting }

@[simp] theorem decDocumentProcessingOptions_enc (o : DocumentProcessingOptions) :
    decDocumentProcessingOptions (encDocumentProcessingOptions o) = some o := by
  simp [decDocumentProcessingOptions, encDocumentProcessingOptions, jLookup]

/-- `TextAnalysisOptions` from types.rs. -/
structure TextAnalysisOptions where
  language : Option String
  max_keywords : ℕ
  min_keyword_length : ℕ
  sentiment_threshold : F32

def encTextAnalysisOptions (o : TextAnalysisOptions) : Json := .obj
  [ ("language", encOpt Json.str o.language)
  , ("max_keywords", encNat o.max_keywords)
  , ("min_keyword_length", encNat o.min_keyword_length)
  , ("sentiment_threshold", .num o.sentiment_threshold) ]

def decTextAnalysisOptions (j : Json) : Option TextAnalysisOptions :=
  j.asObj.bind fun f =>
  ((jLookup f "language").bind (decOpt Json.asStr)).bind fun language =>
  ((jLookup f "max_keywords").bind Json.asNat).bind fun max_keywords =>
  ((jLookup f "min_keyword_length").bind Json.asNat).bind fun min_keyword_length =>
  ((jLookup f "sentiment_threshold").bind Json.asRat).map fun sentiment_threshold =>
  { language, max_keywords, min_keyword_length, sentiment_threshold }

@[simp] theorem decTextAnalysisOptions_enc (o : TextAnalysisOptions) :
    decTextAnalysisOptions (encTextAnalysisOptions o) = some o := by
  simp [decTextAnalysisOptions, encTextAnalysisOptions, jLookup, asNat_encNat]

/-- `TaskPayload` from types.rs. -/
inductive TaskPayload where
  | Document (document : Document) (processing_options : DocumentProcessingOptions)
  | Text (content : String) (analysis_options : TextAnalysisOptions)
  | Vector (vectors : List (List F32)) (metadata : Metadata)
  | Custom (data : List ℕ) (format : String)

def encTaskPayload : TaskPayload → Json
  | .Document d o => .obj [("Document", .obj
      [("document", encDocument d), ("processing_options", encDocumentProcessingOptions o)])]
  | .Text c o => .obj [("Text", .obj
      [("content", .str c), ("analysis_options", encTextAnalysisOptions o)])]
  | .Vector vs m => .obj [("Vector", .obj
      [("vectors", encList (encList Json.num) vs), ("metadata", encMetadata m)])]
  | .Custom data format => .obj [("Custom", .obj
      [("data", encList encNat data), ("format", .str format)])]

def decTaskPayload : Json → Option TaskPayload
  | .obj [("Document", v)] =>
      v.asObj.bind fun fields =>
      ((jLookup fields "document").bind decDocument).bind fun d =>
      ((jLookup fields "processing_options").bind decDocumentProcessingOptions).map fun o =>
      TaskPayload.Document d o
  | .obj [("Text", v)] =>
      v.asObj.bind fun fields =>
      ((jLookup fields "content").bind Json.asStr).bind fun c =>
      ((jLookup fields "analysis_options").bind decTextAnalysisOptions).map fun o =>
      TaskPayload.Text c o
  | .obj [("Vector", v)] =>
      v.asObj.bind fun fields =>
      ((jLookup fields "vectors").bind (decList (decList Json.asRat))).bind fun vs =>
      ((jLookup fields "metadata").bind decMetadata).map fun m =>
      TaskPayload.Vector vs m
  | .obj [("Custom", v)] =>
      v.asObj.bind fun fields =>
      ((jLookup fields "data").bind (decList Json.asNat)).bind fun data =>
      ((jLookup fields "format").bind Json.asStr).map fun format =>
      TaskPayload.Custom data format
  | _ => none

@[simp] theorem decTaskPayload_enc (p : TaskPayload) : decTaskPayload (encTaskPayload p) = some p := by
  cases p <;>
    simp [encTaskPayload, decTaskPayload, jLookup, decList_encList asNat_encNat,
      decList_encList (decList_encList (fun q => asRat_num q))]

/-- `Task` from types.rs. -/
structure Task where
  id : Uuid
  task_type : TaskType
  priority : TaskPriority
  status : TaskStatus
  payload : TaskPayload
  created_at : UtcTime
  deadline : Option UtcTime
  retry_count : ℕ
  max_retries : ℕ
  metadata : Metadata

def encTask (t : Task) : Json := .obj
  [ ("id", .str t.id)
  , ("task_type", encTaskType t.task_type)
  , ("priority", encTaskPriority t.priority)
  , ("status", encTaskStatus t.status)
  , ("payload", encTaskPayload t.payload)
  , ("created_at", .str t.created_at)
  , ("deadline", encOpt Json.str t.deadline)
  , ("retry_count", encNat t.retry_count)
  , ("max_retries", encNat t.max_retries)
  , ("metadata", encMetadata t.metadata) ]

def decTask (j : Json) : Option Task :=
  j.asObj.bind fun f =>
  ((jLookup f "id").bind Json.asStr).bind fun id =>
  ((jLookup f "task_type").bind decTaskType).bind fun task_type =>
  ((jLookup f "priority").bind decTaskPriority).bind fun priority =>
  ((jLookup f "status").bind decTaskStatus).bind fun status =>
  ((jLookup f "payload").bind decTaskPayload).bind fun payload =>
  ((jLookup f "created_at").bind Json.asStr).bind fun created_at =>
  ((jLookup f "deadline").bind (decOpt Json.asStr)).bind fun deadline =>
  ((jLookup f "retry_count").bind Json.asNat).bind fun retry_count =>
  ((jLookup f "max_retries").bind Json.asNat).bind fun max_retries =>
  ((jLookup f "metadata").bind decMetadata).map fun metadata =>
  { id, task_type, priority, status, payload, created_at
  , deadline, retry_count, max_retries, metadata }

@[simp] theorem decTask_enc (t : Task) : decTask (encTask t) = some t := by
  simp [decTask, encTask, jLookup, asNat_encNat]

@[simp] theorem decOpt_encOpt_rat (o : Option ℚ) :
    decOpt Json.asRat (encOpt Json.num o) = some o := by
  cases o <;> rfl

@[simp] theorem decOpt_encOpt_listRat (o : Option (List ℚ)) :
    decOpt (decList Json.asRat) (encOpt (encList Json.num) o) = some o := by
  cases o with
  | none => rfl
  | some xs => simp [encOpt, decOpt, encList, decList, Json.asArr,
      decAll_map_eq_some (fun q => asRat_num q)]

@[simp] theorem decList_encList_str (xs : List String) :
    decList Json.asStr (encList Json.str xs) = some xs :=
  @decList_encList String Json.str Json.asStr (fun _ => rfl) xs

/-- `NamedEntity` from types.rs. -/
structure NamedEntity where
  text : String
  entity_type : String
  confidence : F32
  start_pos : ℕ
  end_pos : ℕ

def encNamedEntity (e : NamedEntity) : Json := .obj
  [ ("text", .str e.text)
  , ("entity_type", .str e.entity_type)
  , ("confidence", .num e.confidence)
  , ("start_pos", encNat e.start_pos)
  , ("end_pos", encNat e.end_pos) ]

def decNamedEntity (j : Json) : Option NamedEntity :=
  j.asObj.bind fun f =>
  ((jLookup f "text").bind Json.asStr).bind fun text =>
  ((jLookup f "entity_type").bind Json.asStr).bind fun entity_type =>
  ((jLookup f "confidence").bind Json.asRat).bind fun confidence =>
  ((jLookup f "start_pos").bind Json.asNat).bind fun start_pos =>
  ((jLookup f "end_pos").bind Json.asNat).map fun end_pos =>
  { text, entity_type, confidence, start_pos, end_pos }

@[simp] theorem decNamedEntity_enc (e : NamedEntity) : decNamedEntity (encNamedEntity e) = some e := by
  simp [decNamedEntity, encNamedEntity, jLookup, asNat_encNat]

/-- `DocumentProcessingResult` from types.rs. -/
structure DocumentProcessingResult where
  document_id : Uuid
  extracted_text : Option String
  metadata : Metadata
  language : Option String
  keywords : List String
  sentiment : Option F32
  classification : Option String
  embeddings : Option (List F32)
  processing_time_ms : ℕ
  processed_at : UtcTime

def encDocumentProcessingResult (r : DocumentProcessingResult) : Json := .obj
  [ ("document_id", .str r.document_id)
  , ("extracted_text", encOpt Json.str r.extracted_text)
  , ("metadata", encMetadata r.metadata)
  , ("language", encOpt Json.str r.language)
  , ("keywords", encList Json.str r.keywords)
  , ("sentiment", encOpt Json.num r.sentiment)
  , ("classification", encOpt Json.str r.classification)
  , ("embeddings", encOpt (encList Json.num) r.embeddings)
  , ("processing_time_ms", encNat r.processing_time_ms)
  , ("processed_at", .str r.processed_at) ]

def decDocumentProcessingResult (j : Json) : Option DocumentProcessingResult :=
  j.asObj.bind fun f =>
  ((jLookup f "document_id").bind Json.asStr).bind fun document_id =>
  ((jLookup f "extracted_text").bind (decOpt Json.asStr)).bind fun extracted_text =>
  ((jLookup f "metadata").bind decMetadata).bind fun metadata =>
  ((jLookup f "language").bind (decOpt Json.asStr)).bind fun language =>
  ((jLookup f "keywords").bind (decList Json.asStr)).bind fun keywords =>
  ((jLookup f "sentiment").bind (decOpt Json.asRat)).bind fun sentiment =>
  ((jLookup f "classification").bind (decOpt Json.asStr)).bind fun classification =>
  ((jLookup f "embeddings").bind (decOpt (decList Json.asRat))).bind fun embeddings =>
  ((jLookup f "processing_time_ms").bind Json.asNat).bind fun processing_time_ms =>
  ((jLookup f "processed_at").bind Json.asStr).map fun processed_at =>
  { document_id, extracted_text, metadata, language, keywords
  , sentiment, classification, embeddings, processing_time_ms, processed_at }

@[simp] theorem decDocumentProcessingResult_enc (r : DocumentProcessingResult) :
    decDocumentProcessingResult (encDocumentProcessingResult r) = some r := by
  simp [decDocumentProcessingResult, encDocumentProcessingResult, jLookup, asNat_encNat]

/-- `TextAnalysisResult` from types.rs. -/
structure TextAnalysisResult where
  text_id : Uuid
  language : Option String
  keywords : List String
  sentiment : Option F32
  entities : List NamedEntity
  topics : List String
  summary : Option String
  processing_time_ms : ℕ
  processed_at : UtcTime

def encTextAnalysisResult (r : TextAnalysisResult) : Json := .obj
  [ ("text_id", .str r.text_id)
  , ("language", encOpt Json.str r.language)
  , ("keywords", encList Json.str r.keywords)
  , ("sentiment", encOpt Json.num r.sentiment)
  , ("entities", encList encNamedEntity r.entities)
  , ("topics", encList Json.str r.topics)
  , ("summary", encOpt Json.str r.summary)
  , ("processing_time_ms", encNat r.processing_time_ms)
  , ("processed_at", .str r.processed_at) ]

def decTextAnalysisResult (j : Json) : Option TextAnalysisResult :=
  j.asObj.bind fun f =>
  ((jLookup f "text_id").bind Json.asStr).bind fun text_id =>
  ((jLookup f "language").bind (decOpt Json.asStr)).bind fun language =>
  ((jLookup f "keywords").bind (decList Json.asStr)).bind fun keywords =>
  ((jLookup f "sentiment").bind (decOpt Json.asRat)).bind fun sentiment =>
  ((jLookup f "entities").bind (decList decNamedEntity)).bind fun entities =>
  ((jLookup f "topics").bind (decList Json.asStr)).bind fun topics =>
  ((jLookup f "summary").bind (decOpt Json.asStr)).bind fun summary =>
  ((jLookup f "processing_time_ms").bind Json.asNat).bind fun processing_time_ms =>
  ((jLookup f "processed_at").bind Json.asStr).map fun processed_at =>
  { text_id, language, keywords, sentiment, entities
  , topics, summary, processing_time_ms, processed_at }

@[simp] theorem decTextAnalysisResult_enc (r : TextAnalysisResult) :
    decTextAnalysisResult (encTextAnalysisResult r) = some r := by
  simp [decTextAnalysisResult, encTextAnalysisResult, jLookup, asNat_encNat,
    decList_encList decNamedEntity_enc]

/-- `VectorIndexingResult` from types.rs. -/
structure VectorIndexingResult where
  index_id : Uuid
  vector_count : ℕ
  index_size_bytes : ℕ
  index_type : VectorIndexType
  processing_time_ms : ℕ
  processed_at : UtcTime

def encVectorIndexingResult (r : VectorIndexingResult) : Json := .obj
  [ ("index_id", .str r.index_id)
  , ("vector_count", encNat r.vector_count)
  , ("index_size_bytes", encNat r.index_size_bytes)
  , ("index_type", encVectorIndexType r.index_type)
  , ("processing_time_ms", encNat r.processing_time_ms)
  , ("processed_at", .str r.processed_at) ]

def decVectorIndexingResult (j : Json) : Option VectorIndexingResult :=
  j.asObj.bind fun f =>
  ((jLookup f "index_id").bind Json.asStr).bind fun index_id =>
  ((jLookup f "vector_count").bind Json.asNat).bind fun vector_count =>
  ((jLookup f "index_size_bytes").bind Json.asNat).bind fun index_size_bytes =>
  ((jLookup f "index_type").bind decVectorIndexType).bind fun index_type =>
  ((jLookup f "processing_time_ms").bind Json.asNat).bind fun processing_time_ms =>
  ((jLookup f "processed_at").bind Json.asStr).map fun processed_at =>
  { index_id, vector_count, index_size_bytes, index_type, processing_time_ms, processed_at }

@[simp] theorem decVectorIndexingResult_enc (r : VectorIndexingResult) :
    decVectorIndexingResult (encVectorIndexingResult r) = some r := by
  simp [decVectorIndexingResult, encVectorIndexingResult, jLookup, asNat_encNat]

/-- `TaskResultData` from types.rs. -/
inductive TaskResultData where
  | DocumentProcessing (r : DocumentProcessingResult)
  | TextAnalysis (r : TextAnalysisResult)
  | VectorIndexing (r : VectorIndexingResult)
  | Custom (data : List ℕ) (format : String)

def encTaskResultData : TaskResultData → Json
  | .DocumentProcessing r => .obj [("DocumentProcessing", encDocumentProcessingResult r)]
  | .TextAnalysis r => .obj [("TextAnalysis", encTextAnalysisResult r)]
  | .VectorIndexing r => .obj [("VectorIndexing", encVectorIndexingResult r)]
  | .Custom data format => .obj [("Custom", .obj
      [("data", encList encNat data), ("format", .str format)])]

def decTaskResultData : Json → Option TaskResultData
  | .obj [("DocumentProcessing", v)] => (decDocumentProcessingResult v).map TaskResultData.DocumentProcessing
  | .obj [("TextAnalysis", v)] => (decTextAnalysisResult v).map TaskResultData.TextAnalysis
  | .obj [("VectorIndexing", v)] => (decVectorIndexingResult v).map TaskResultData.VectorIndexing
  | .obj [("Custom", v)] =>
      v.asObj.bind fun fields =>
      ((jLookup fields "data").bind (decList Json.asNat)).bind fun data =>
      ((jLookup fields "format").bind Json.asStr).map fun format =>
      TaskResultData.Custom data format
  | _ => none

@[simp] theorem decTaskResultData_enc (d : TaskResultData) :
    decTaskResultData (encTaskResultData d) = some d := by
  cases d <;> simp [encTaskResultData, decTaskResultData, jLookup, decList_encList asNat_encNat]

/-- `TaskResult` from types.rs. -/
structure TaskResult where
  task_id : Uuid
  status : TaskStatus
  result : Option TaskResultData
  error : Option String
  processing_time_ms : ℕ
  completed_at : UtcTime
  metadata : Metadata

def encTaskResult (r : TaskResult) : Json := .obj
  [ ("task_id", .str r.task_id)
  , ("status", encTaskStatus r.status)
  , ("result", encOpt encTaskResultData r.result)
  , ("error", encOpt Json.str r.error)
  , ("processing_time_ms", encNat r.processing_time_ms)
  , ("completed_at", .str r.completed_at)
  , ("metadata", encMetadata r.metadata) ]

def decTaskResult (j : Json) : Option TaskResult :=
  j.asObj.bind fun f =>
  ((jLookup f "task_id").bind Json.asStr).bind fun task_id =>
  ((jLookup f "status").bind decTaskStatus).bind fun status =>
  ((jLookup f "result").bind (decOpt decTaskResultData)).bind fun result =>
  ((jLookup f "error").bind (decOpt Json.asStr)).bind fun error =>
  ((jLookup f "processing_time_ms").bind Json.asNat).bind fun processing_time_ms =>
  ((jLookup f "completed_at").bind Json.asStr).bind fun completed_at =>
  ((jLookup f "metadata").bind decMetadata).map fun metadata =>
  { task_id, status, result, error, processing_time_ms, completed_at, metadata }

@[simp] theorem decOpt_encOpt_taskResultData (o : Option TaskResultData) :
    decOpt decTaskResultData (encOpt encTaskResultData o) = some o := by
  apply decOpt_encOpt _ decTaskResultData_enc
  intro d
  cases d <;> simp [encTaskResultData]

@[simp] theorem decTaskResult_enc (r : TaskResult) : decTaskResult (encTaskResult r) = some r := by
  simp [decTaskResult, encTaskResult, jLookup, asNat_encNat]

/-! ## Messages and the comms layer (src/crates/swarm-comms) -/

/-- `Message` from types.rs. The payload is `Vec<u8>` in Rust; it is kept
polymorphic here so that serializer outputs can carry the JSON document the
bytes denote (`Json`) while the validators and the broker treat it as raw
bytes (`List ℕ`). -/
structure Message (π : Type) where
  id : Uuid
  subject : String
  payload : π
  headers : List (String × String)
  timestamp : UtcTime
  ttl_ms : Option ℕ

/-- A message whose payload is tracked only as raw bytes. -/
abbrev ByteMessage := Message (List ℕ)

/-- A message whose payload is tracked as the JSON document its bytes spell. -/
abbrev JsonMessage := Message Json

/-- Rust `Debug` output for `DocumentType` (used as a header value). -/
def debugDocumentType (d : DocumentType) : String :=
  match d with
  | .Pdf => "Pdf"
  | .Word => "Word"
  | .Text => "Text"
  | .Html => "Html"
  | .Markdown => "Markdown"
  | .Excel => "Excel"
  | .PowerPoint => "PowerPoint"
  | .Image => "Image"
  | .Audio => "Audio"
  | .Video => "Video"
  | .Unknown => "Unknown"

/-- Rust `Debug` output for `DocumentProcessingType`. -/
def debugDocumentProcessingType (t : DocumentProcessingType) : String :=
  match t with
  | .TextExtraction => "TextExtraction"
  | .MetadataExtraction => "MetadataExtraction"
  | .LanguageDetection => "LanguageDetection"
  | .KeywordExtraction => "KeywordExtraction"
  | .SentimentAnalysis => "SentimentAnalysis"
  | .Classification => "Classification"
  | .VectorEmbedding => "VectorEmbedding"

/-- Rust `Debug` output for `TextAnalysisType`. -/
def debugTextAnalysisType (t : TextAnalysisType) : String :=
  match t with
  | .LanguageDetection => "LanguageDetection"
  | .KeywordExtraction => "KeywordExtraction"
  | .SentimentAnalysis => "SentimentAnalysis"
  | .NamedEntityRecognition => "NamedEntityRecognition"
  | .TopicModeling => "TopicModeling"
  | .Summarization => "Summarization"

/-- Rust `Debug` output for `VectorIndexType`. -/
def debugVectorIndexType (t : VectorIndexType) : String :=
  match t with
  | .DenseEmbedding => "DenseEmbedding"
  | .SparseEmbedding => "SparseEmbedding"
  | .HybridEmbedding => "HybridEmbedding"
  | .SemanticSearch => "SemanticSearch"

/-- Rust `Debug` output for `TaskType`. -/
def debugTaskType (t : TaskType) : String :=
  match t with
  | .DocumentProcessing dt pt =>
      "DocumentProcessing \x7b document_type: " ++ debugDocumentType dt ++
      ", processing_type: " ++ debugDocumentProcessingType pt ++ " \x7d"
  | .TextAnalysis a =>
      "TextAnalysis \x7b analysis_type: " ++ debugTextAnalysisType a ++ " \x7d"
  | .VectorIndexing i =>
      "VectorIndexing \x7b index_type: " ++ debugVectorIndexType i ++ " \x7d"
  | .Custom n v =>
      "Custom \x7b name: \"" ++ n ++ "\", version: \"" ++ v ++ "\" \x7d"

/-- Rust `Debug` output for `TaskPriority`. -/
def debugTaskPriority (p : TaskPriority) : String :=
  match p with
  | .Low => "Low"
  | .Normal => "Normal"
  | .High => "High"
  | .Critical => "Critical"

/-- Rust `Debug` output for `TaskStatus`. -/
def debugTaskStatus (s : TaskStatus) : String :=
  match s with
  | .Pending => "Pending"
  | .Assigned => "Assigned"
  | .Processing => "Processing"
  | .Completed => "Completed"
  | .Failed => "Failed"
  | .Cancelled => "Cancelled"
  | .Retrying => "Retrying"

/-- `MessageSerializer::serialize_document` from message_serialization.rs.
The effectful `Uuid::new_v4()` and `Utc::now()` calls are passed in as the
`freshId` and `now` arguments. -/
def serialize_document (freshId : Uuid) (now : UtcTime) (document : Document) : JsonMessage :=
  { id := freshId
  , subject := "swarm.documents.incoming"
  , payload := encDocument document
  , headers :=
      [ ("content-type", "application/json")
      , ("document-type", debugDocumentType document.document_type)
      , ("document-id", document.id) ]
  , timestamp := now
  , ttl_ms := some 300000 }

/-- `MessageSerializer::deserialize_document`. -/
def deserialize_document (message : JsonMessage) : Option Document :=
  decDocument message.payload

/-- `MessageSerializer::serialize_task`. -/
def serialize_task (freshId : Uuid) (now : UtcTime) (task : Task) : JsonMessage :=
  { id := freshId
  , subject := "swarm.tasks.assignments"
  , payload := encTask task
  , headers :=
      [ ("content-type", "application/json")
      , ("task-type", debugTaskType task.task_type)
      , ("task-id", task.id)
      , ("priority", debugTaskPriority task.priority) ]
  , timestamp := now
  , ttl_ms := some 600000 }

/-- `MessageSerializer::deserialize_task`. -/
def deserialize_task (message : JsonMessage) : Option Task :=
  decTask message.payload

/-- `MessageSerializer::serialize_task_result`. -/
def serialize_task_result (freshId : Uuid) (now : UtcTime) (result : TaskResult) : JsonMessage :=
  { id := freshId
  , subject := "swarm.tasks.results"
  , payload := encTaskResult result
  , headers :=
      [ ("content-type", "application/json")
      , ("task-id", result.task_id)
      , ("status", debugTaskStatus result.status) ]
  , timestamp := now
  , ttl_ms := some 900000 }

/-- `MessageSerializer::deserialize_task_result`. -/
def deserialize_task_result (message : JsonMessage) : Option TaskResult :=
  decTaskResult message.payload

/-- `MessageValidator::validate_message_size` from message_serialization.rs:
`payload.len() + subject.len() + headers.values().map(|v| v.len()).sum()`
compared against `max_size`. Rust `String::len` is the UTF-8 byte count. -/
def validate_message_size (message : ByteMessage) (max_size : ℕ) : Except String Unit :=
  let total_size := message.payload.length + message.subject.utf8ByteSize +
    (message.headers.map (fun p => p.2.utf8ByteSize)).sum
  if total_size > max_size then
    .error ("Message size " ++ toString total_size ++ " exceeds maximum size " ++ toString max_size)
  else
    .ok ()

/-- `MessageValidator::validate_message_ttl` from message_serialization.rs. -/
def validate_message_ttl (message : ByteMessage) : Except String Unit :=
  match message.ttl_ms with
  | some ttl_ms =>
      if ttl_ms = 0 then .error "Message TTL cannot be zero"
      else if ttl_ms > 3600000 then .error "Message TTL cannot exceed 1 hour"
      else .ok ()
  | none => .ok ()

/-- `NatsConfig` from swarm-comms/src/lib.rs. -/
structure NatsConfig where
  url : String
  connection_timeout_ms : ℕ
  max_reconnect_attempts : ℕ
  reconnect_delay_ms : ℕ
  max_message_size : ℕ
  enable_tls : Bool
  tls_cert_path : Option String
  tls_key_path : Option String
  tls_ca_path : Option String

/-- `Default for NatsConfig` from swarm-comms/src/lib.rs. -/
def NatsConfig.default : NatsConfig :=
  { url := "nats://localhost:4222"
  , connection_timeout_ms := 5000
  , max_reconnect_attempts := 10
  , reconnect_delay_ms := 1000
  , max_message_size := 1024 * 1024
  , enable_tls := false
  , tls_cert_path := none
  , tls_key_path := none
  , tls_ca_path := none }

/-- Outcome of `NatsBroker::publish_message` (the `MessageError` variants it
can produce). -/
inductive PublishOutcome where
  | ok
  | messageTooLarge (size : ℕ) (max_size : ℕ)
  | natsError (msg : String)
deriving DecidableEq

/-- `NatsBroker::publish_message` from nats_broker.rs. `serializeBytes`
stands for `serde_json::to_vec(message)` (an arbitrary serializer), and
`transportOk` for whether the underlying NATS `publish` call succeeds. -/
def publish_message (serializeBytes : ByteMessage → List ℕ) (cfg : NatsConfig)
    (transportOk : Bool) (message : ByteMessage) : PublishOutcome :=
  let serialized := serializeBytes message
  if serialized.length > cfg.max_message_size then
    .messageTooLarge serialized.length cfg.max_message_size
  else if transportOk then .ok
  else .natsError "NATS publish failed"

/-! ## Worker records and the core coordinator (src/crates/swarm-core) -/

/-- `WorkerType` from types.rs (the typed core family). -/
inductive WorkerType where
  | DocumentProcessor (supported_types : List DocumentType)
  | TextAnalyzer (supported_analyses : List TextAnalysisType)
  | VectorIndexer (supported_indexes : List VectorIndexType)
  | Custom (name : String) (version : String)

/-- `PerformanceProfile` from types.rs. -/
structure PerformanceProfile where
  avg_processing_time_ms : ℕ
  memory_usage_mb : ℕ
  cpu_intensity : F32
  throughput_per_second : F32

/-- `WorkerCapability` from types.rs. -/
structure WorkerCapability where
  name : String
  version : String
  supported_task_types : List TaskType
  max_concurrent_tasks : ℕ
  performance_profile : PerformanceProfile
  metadata : Metadata

/-- `WorkerConfig` from types.rs. -/
structure WorkerConfig where
  id : Uuid
  name : String
  worker_type : WorkerType
  max_concurrent_tasks : ℕ
  capabilities : List WorkerCapability
  performance_profile : PerformanceProfile
  health_check_interval_ms : ℕ
  shutdown_timeout_ms : ℕ
  metadata : Metadata

/-- `Worker::has_capacity` default method from traits.rs:
`self.current_load() < self.max_concurrent_tasks()`. -/
def has_capacity (current_load max_concurrent_tasks : ℕ) : Bool :=
  current_load < max_concurrent_tasks

/-- The kind of tokio mpsc channel a worker inbox was created with.
`SwarmCoordinator::register_worker` calls `mpsc::unbounded_channel()`,
whereas the spec calls for `mpsc::channel(max_concurrent_tasks)`. -/
inductive ChannelKind where
  | unbounded
  | bounded (capacity : ℕ)
deriving DecidableEq

/-- The `mpsc::UnboundedReceiver<Task>` handed back by `register_worker`,
abstracted to the kind of channel it belongs to. -/
structure TaskReceiver where
  kind : ChannelKind

/-- `WorkerHandle` from coordinator.rs: `{task_sender, worker_id, config}`.
The channel object behind `task_sender` is abstracted to whether a send on
it currently succeeds (the receiver half is still alive). -/
structure WorkerHandle where
  task_sender_open : Bool
  worker_id : Uuid
  config : WorkerConfig

/-- `SwarmCoordinator` from coordinator.rs. The `workers` HashMap is an
association list; HashMap iteration order is unspecified in Rust, so the
list order is a model parameter standing for whatever order the map
iterates in. The result channel endpoints play no part in the claims and
are omitted. -/
structure SwarmCoordinator where
  workers : List (Uuid × WorkerHandle)
  task_queue : List Task

/-- `HashMap::insert`: replaces any binding with the same key. -/
def hashMapInsert {β : Type} (k : Uuid) (v : β) (m : List (Uuid × β)) : List (Uuid × β) :=
  (k, v) :: m.filter (fun p => p.1 ≠ k)

/-- `HashMap::get`. -/
def hashMapGet {β : Type} (m : List (Uuid × β)) (k : Uuid) : Option β :=
  (m.find? (fun p => p.1 == k)).map (fun p => p.2)

/-- `SwarmCoordinator::register_worker` from coordinator.rs: creates a fresh
`mpsc::unbounded_channel()`, inserts a `WorkerHandle` into the map
(silently replacing any existing entry with that ID -- there is no error
path), and returns the receiver half. A fresh channel's send side is open. -/
def register_worker (c : SwarmCoordinator) (worker_id : Uuid) (config : WorkerConfig) :
    SwarmCoordinator × TaskReceiver :=
  let handle : WorkerHandle := { task_sender_open := true, worker_id, config }
  ({ c with workers := hashMapInsert worker_id handle c.workers }, { kind := .unbounded })

/-- `SwarmCoordinator::unregister_worker` from coordinator.rs. -/
def unregister_worker (c : SwarmCoordinator) (worker_id : Uuid) : SwarmCoordinator × Bool :=
  (({ c with workers := c.workers.filter (fun p => p.1 ≠ worker_id) }),
   (hashMapGet c.workers worker_id).isSome)

/-- `SwarmCoordinator::submit_task` from coordinator.rs: `Vec::push`. -/
def submit_task (c : SwarmCoordinator) (task : Task) : SwarmCoordinator :=
  { c with task_queue := c.task_queue ++ [task] }

/-- The `for (task_index, task) in self.task_queue.iter().enumerate()` loop
of `distribute_pending_tasks`, specialized to the fact that
`self.workers.iter().next()` yields the same first worker `w` on every
iteration. If the send succeeds the task is removed and the loop breaks;
if the send fails the task is removed anyway (its index is pushed onto
`tasks_to_remove` with no break), so a closed channel silently drains the
whole queue. Returns the remaining queue and the dispatched pair. -/
def distributeLoop (w : Uuid × WorkerHandle) : List Task → List Task × Option (Uuid × Task)
  | [] => ([], none)
  | t :: rest =>
      if w.2.task_sender_open then (rest, some (w.1, t))
      else distributeLoop w rest

/-- `SwarmCoordinator::distribute_pending_tasks` from coordinator.rs.
Returns the updated coordinator and the `(worker_id, task)` actually sent,
if any. -/
def distribute_pending_tasks (c : SwarmCoordinator) : SwarmCoordinator × Option (Uuid × Task) :=
  if c.task_queue.isEmpty || c.workers.isEmpty then (c, none)
  else
    match c.workers.head? with
    | none => (c, none)
    | some w =>
        let r := distributeLoop w c.task_queue
        ({ c with task_queue := r.1 }, r.2)

/-! ## The capability scheduler (src/examples/enhanced-worker-system/src/main.rs)

The scoring arithmetic is `f32` in Rust; it is modelled over exact
rationals. The one point where IEEE semantics is observable is
`required_capabilities.len() == 0`, where the coverage fraction is
`0.0 / 0.0 = NaN`; NaN propagates through the remaining additions and makes
every `>` comparison false. This is modelled by letting
`calculate_worker_score` return `none` exactly in that case, and by making
the `score > best_score` test false on `none`. -/

namespace Enhanced

/-- `WorkerType` from enhanced-worker-system/src/main.rs. -/
inductive WorkerType where
  | DocumentProcessor | MLInference | VectorIndexer | RealTimeAnalyzer | Generic
deriving DecidableEq

/-- `Capability` from enhanced-worker-system/src/main.rs. -/
inductive Capability where
  | TextProcessing | VectorIndexing | ModelServing | Prediction
  | StreamProcessing | ImageProcessing | AudioProcessing | BasicComputation
deriving DecidableEq

/-- `PerformanceProfile` from enhanced-worker-system/src/main.rs. -/
structure PerformanceProfile where
  avg_processing_time_ms : ℕ
  memory_usage_mb : ℕ
  cpu_intensity : F32
deriving DecidableEq

/-- `EnhancedWorkerConfig` from enhanced-worker-system/src/main.rs
(`capabilities` is a `HashSet`, modelled as a duplicate-free list; the code
only iterates it and tests membership). -/
structure EnhancedWorkerConfig where
  max_concurrent_tasks : ℕ
  worker_type : WorkerType
  capabilities : List Capability
  performance_profile : PerformanceProfile
deriving DecidableEq

/-- `TaskType` from enhanced-worker-system/src/main.rs. -/
inductive TaskType where
  | Echo | Compute | DocumentAnalysis | MLInference
  | VectorIndexing | RealTimeAnalysis | Error
deriving DecidableEq

/-- `TaskRequirements` from enhanced-worker-system/src/main.rs
(`required_capabilities` is a `HashSet`, modelled as a duplicate-free
list). -/
structure TaskRequirements where
  required_capabilities : List Capability
  preferred_worker_type : Option WorkerType
  max_processing_time_ms : Option ℕ
  memory_requirement_mb : Option ℕ
deriving DecidableEq

/-- `EnhancedTask` from enhanced-worker-system/src/main.rs. -/
structure EnhancedTask where
  id : Uuid
  task_type : TaskType
  payload : Json
  requirements : TaskRequirements
  created_at : String

/-- `EnhancedCoordinator::calculate_worker_score`: starts from `0.0`, adds
`capability_match * 0.6`, then `0.3` on a preferred-type match, then `0.1`
when `max_processing_time_ms` is present and `avg_processing_time_ms` is
within it. `capability_match` is
`required ∩ caps(w)).count() / required.len()`, which is NaN (`none`) when
no capability is required. -/
def calculate_worker_score (config : EnhancedWorkerConfig)
    (requirements : TaskRequirements) : Option ℚ :=
  if requirements.required_capabilities = [] then none
  else
    let capability_match : ℚ :=
      ((requirements.required_capabilities.filter
          (fun cap => cap ∈ config.capabilities)).length : ℚ) /
        (requirements.required_capabilities.length : ℚ)
    let score1 : ℚ := 0 + capability_match * (6/10)
    let score2 : ℚ := score1 +
      (match requirements.preferred_worker_type with
       | some preferred => if config.worker_type = preferred then 3/10 else 0
       | none => 0)
    let score3 : ℚ := score2 +
      (match requirements.max_processing_time_ms with
       | some max_time =>
           if config.performance_profile.avg_processing_time_ms ≤ max_time then 1/10 else 0
       | none => 0)
    some score3

/-- One iteration of the `for (worker_id, config) in &self.workers` loop of
`find_best_worker_for_task`: `if score > best_score` (false when the score
is NaN) updates `(best_worker, best_score)`. -/
def bestStep (requirements : TaskRequirements) (acc : Option Uuid × ℚ)
    (p : Uuid × EnhancedWorkerConfig) : Option Uuid × ℚ :=
  match calculate_worker_score p.2 requirements with
  | none => acc
  | some score => if acc.2 < score then (some p.1, score) else acc

/-- `EnhancedCoordinator::find_best_worker_for_task`: fold of `bestStep`
over the workers map starting from `(None, 0.0)`. The HashMap iteration
order is unspecified in Rust; the list order stands for it. -/
def find_best_worker_for_task (workers : List (Uuid × EnhancedWorkerConfig))
    (task : EnhancedTask) : Option Uuid :=
  (workers.foldl (bestStep task.requirements) (none, 0)).1

theorem foldl_bestStep_spec (req : TaskRequirements) :
    ∀ (ws : List (Uuid × EnhancedWorkerConfig)) (acc : Option Uuid × ℚ),
    (ws.foldl (bestStep req) acc = acc ∨
      ∃ p ∈ ws, (ws.foldl (bestStep req) acc).1 = some p.1 ∧
        calculate_worker_score p.2 req = some (ws.foldl (bestStep req) acc).2 ∧
        acc.2 < (ws.foldl (bestStep req) acc).2) ∧
    acc.2 ≤ (ws.foldl (bestStep req) acc).2 ∧
    (∀ p ∈ ws, ∀ s, calculate_worker_score p.2 req = some s →
      s ≤ (ws.foldl (bestStep req) acc).2) := by
  intro ws
  induction ws with
  | nil => exact fun acc => ⟨Or.inl rfl, le_refl _, fun p hp => absurd hp (List.not_mem_nil p)⟩
  | cons a tl ih =>
    intro acc
    rw [List.foldl_cons]
    obtain ⟨ih1, ih2, ih3⟩ := ih (bestStep req acc a)
    rcases hs : calculate_worker_score a.2 req with _ | s0
    · have hstep : bestStep req acc a = acc := by simp [bestStep, hs]
      rw [hstep] at ih1 ih2 ih3 ⊢
      refine ⟨?_, ih2, ?_⟩
      · rcases ih1 with h | ⟨p, hp, h⟩
        · exact Or.inl h
        · exact Or.inr ⟨p, List.mem_cons_of_mem a hp, h⟩
      · intro p hp s hps
        rcases List.mem_cons.mp hp with rfl | hp
        · rw [hps] at hs; cases hs
        · exact ih3 p hp s hps
    · by_cases hlt : acc.2 < s0
      · have hstep : bestStep req acc a = (some a.1, s0) := by simp [bestStep, hs, hlt]
        rw [hstep] at ih1 ih2 ih3 ⊢
        refine ⟨?_, le_trans (le_of_lt hlt) ih2, ?_⟩
        · rcases ih1 with h | ⟨p, hp, h1, h2, h3⟩
          · exact Or.inr ⟨a, List.mem_cons_self a tl, by rw [h]; exact ⟨rfl, hs, hlt⟩⟩
          · exact Or.inr ⟨p, List.mem_cons_of_mem a hp, h1, h2, lt_of_lt_of_le hlt ih2⟩
        · intro p hp s hps
          rcases List.mem_cons.mp hp with rfl | hp
          · rw [hps] at hs
            injection hs with hs
            rw [hs]; exact ih2
          · exact ih3 p hp s hps
      · have hstep : bestStep req acc a = acc := by simp [bestStep, hs, hlt]
        rw [hstep] at ih1 ih2 ih3 ⊢
        refine ⟨?_, ih2, ?_⟩
        · rcases ih1 with h | ⟨p, hp, h⟩
          · exact Or.inl h
          · exact Or.inr ⟨p, List.mem_cons_of_mem a hp, h⟩
        · intro p hp s hps
          rcases List.mem_cons.mp hp with rfl | hp
          · rw [hps] at hs
            injection hs with hs
            rw [hs]; exact le_trans (le_of_not_lt hlt) ih2
          · exact ih3 p hp s hps

/-- C2 (amended): `find_best_worker_for_task` applies no capability-coverage
(or any other eligibility) filter; the worker it selects is simply one that
is registered and whose score is defined (non-NaN), strictly positive, and
maximal among the scores of all registered workers. In particular a worker
lacking some required capability is selected whenever its score beats the
covering workers' scores (see the counterexample). -/
theorem C2_selected_worker_maximizes_score (workers : List (Uuid × EnhancedWorkerConfig))
    (task : EnhancedTask) (w : Uuid)
    (h : find_best_worker_for_task workers task = some w) :
    ∃ p ∈ workers, p.1 = w ∧
      ∃ q, calculate_worker_score p.2 task.requirements = some q ∧ 0 < q ∧
        ∀ p2 ∈ workers, ∀ s, calculate_worker_score p2.2 task.requirements = some s → s ≤ q := by
  obtain ⟨h1, _, h3⟩ := foldl_bestStep_spec task.requirements workers (none, 0)
  unfold find_best_worker_for_task at h
  rcases h1 with heq | ⟨p, hp, hid, hscore, hpos⟩
  · rw [heq] at h; cases h
  · rw [h] at hid
    exact ⟨p, hp, (Option.some_inj.mp hid).symm, _, hscore, hpos, h3⟩

/-- The score formula exactly as claim C1 states it (spec §4.3): coverage
term `1.0` on an empty required set, and performance-fit term `1` when the
task has no `max_processing_time_ms`. Written from the spec's words, for
comparison against `calculate_worker_score` (which is written from the
code). -/
def scoreFormulaClaimed (config : EnhancedWorkerConfig) (req : TaskRequirements) : ℚ :=
  (6/10) * (if req.required_capabilities = [] then 1 else
      ((req.required_capabilities.filter (fun cap => cap ∈ config.capabilities)).length : ℚ) /
        (req.required_capabilities.length : ℚ))
  + (3/10) * (if req.preferred_worker_type = some config.worker_type then 1 else 0)
  + (1/10) * (match req.max_processing_time_ms with
      | some max_time =>
          if config.performance_profile.avg_processing_time_ms ≤ max_time then 1 else 0
      | none => 1)

/-- The weighted-sum score the code actually computes on a non-empty
required-capability set: the performance-fit term is `0`, not `1`, when the
task has no `max_processing_time_ms`. -/
def scoreFormulaAmended (config : EnhancedWorkerConfig) (req : TaskRequirements) : ℚ :=
  (6/10) * (((req.required_capabilities.filter (fun cap => cap ∈ config.capabilities)).length : ℚ) /
      (req.required_capabilities.length : ℚ))
  + (3/10) * (if req.preferred_worker_type = some config.worker_type then 1 else 0)
  + (1/10) * (match req.max_processing_time_ms with
      | some max_time =>
          if config.performance_profile.avg_processing_time_ms ≤ max_time then 1 else 0
      | none => 0)

/-- C1 (amended): on a non-empty required-capability set the score is
`0.60 · coverage + 0.30 · [preferred type matches] + 0.10 · [max processing
time present and met]`; with no max processing time the performance-fit
term is `0`, and on an empty required-capability set the score is NaN
(`none`), not a `1.0` coverage term. -/
theorem C1_score_decomposition (config : EnhancedWorkerConfig) (req : TaskRequirements) :
    calculate_worker_score config req =
      if req.required_capabilities = [] then none
      else some (scoreFormulaAmended config req) := by
  unfold calculate_worker_score scoreFormulaAmended
  by_cases hempty : req.required_capabilities = []
  · simp [hempty]
  · rw [if_neg hempty, if_neg hempty]
    refine congrArg some ?_
    cases hp : req.preferred_worker_type with
    | none =>
        cases hm : req.max_processing_time_ms <;> simp <;> ring
    | some p =>
        by_cases hw : config.worker_type = p
        · subst hw
          cases hm : req.max_processing_time_ms <;> simp <;> ring
        · have hw2 : ¬ some p = some config.worker_type := by
            intro h
            exact hw (Option.some_inj.mp h).symm
          cases hm : req.max_processing_time_ms <;> simp [hw, hw2] <;> ring

/-- Worker used by the C1 counterexample: possesses the single required
capability, no preferred type anywhere, no max processing time. -/
def c1config : EnhancedWorkerConfig :=
  { max_concurrent_tasks := 5
  , worker_type := .Generic
  , capabilities := [Capability.TextProcessing]
  , performance_profile := { avg_processing_time_ms := 100, memory_usage_mb := 256, cpu_intensity := 1/2 } }

/-- Requirements used by the C1 counterexample. -/
def c1req : TaskRequirements :=
  { required_capabilities := [Capability.TextProcessing]
  , preferred_worker_type := none
  , max_processing_time_ms := none
  , memory_requirement_mb := none }

theorem c1_score_eval : calculate_worker_score c1config c1req = some (3/5) := by
  norm_num [calculate_worker_score, c1config, c1req]

/-- C1 counterexample: full coverage, no preference, no max processing time.
The code scores `0.6`; the claimed formula gives `0.6 + 0 + 0.1·1 = 0.7`. -/
theorem C1_counterexample_perf_term :
    calculate_worker_score c1config c1req = some (3/5) ∧
    scoreFormulaClaimed c1config c1req = 7/10 ∧ (3/5 : ℚ) ≠ 7/10 := by
  refine ⟨c1_score_eval, ?_, by norm_num⟩
  simp +decide [scoreFormulaClaimed, c1config, c1req, List.filter]
  norm_num

/-- Requirements of the C2 counterexample task: two required capabilities,
a preferred worker type, and a max processing time. -/
def c2req : TaskRequirements :=
  { required_capabilities := [Capability.TextProcessing, Capability.VectorIndexing]
  , preferred_worker_type := some .MLInference
  , max_processing_time_ms := some 200
  , memory_requirement_mb := none }

/-- The C2 counterexample task. -/
def c2task : EnhancedTask :=
  { id := "task-c2"
  , task_type := .MLInference
  , payload := .null
  , requirements := c2req
  , created_at := "2024-01-01T00:00:00Z" }

/-- Worker `W`: covers both required capabilities (score `0.6`; wrong type,
too slow for the max time). -/
def c2workerW : EnhancedWorkerConfig :=
  { max_concurrent_tasks := 5
  , worker_type := .Generic
  , capabilities := [Capability.TextProcessing, Capability.VectorIndexing]
  , performance_profile := { avg_processing_time_ms := 300, memory_usage_mb := 512, cpu_intensity := 3/5 } }

/-- Worker `W'`: covers only one of the two required capabilities but has
the preferred type and fits the max time (score `0.3 + 0.3 + 0.1 = 0.7`). -/
def c2workerV : EnhancedWorkerConfig :=
  { max_concurrent_tasks := 3
  , worker_type := .MLInference
  , capabilities := [Capability.TextProcessing]
  , performance_profile := { avg_processing_time_ms := 100, memory_usage_mb := 2048, cpu_intensity := 9/10 } }

theorem c2_scoreW_eval : calculate_worker_score c2workerW c2req = some (3/5) := by
  simp +decide [calculate_worker_score, c2workerW, c2req, List.filter]
  norm_num

theorem c2_scoreV_eval : calculate_worker_score c2workerV c2req = some (7/10) := by
  simp +decide [calculate_worker_score, c2workerV, c2req, List.filter]
  norm_num

theorem c2_find_best_wv :
    find_best_worker_for_task [("w", c2workerW), ("v", c2workerV)] c2task = some "v" := by
  norm_num [find_best_worker_for_task, bestStep, c2task, c2_scoreW_eval, c2_scoreV_eval]

theorem c2_find_best_vw :
    find_best_worker_for_task [("v", c2workerV), ("w", c2workerW)] c2task = some "v" := by
  norm_num [find_best_worker_for_task, bestStep, c2task, c2_scoreW_eval, c2_scoreV_eval]

/-- C2 counterexample: `W` covers all required capabilities and `W'` does
not, yet the scheduler selects `W'` (in either iteration order). -/
theorem C2_counterexample_uncovered_selected :
    find_best_worker_for_task [("w", c2workerW), ("v", c2workerV)] c2task = some "v" ∧
    find_best_worker_for_task [("v", c2workerV), ("w", c2workerW)] c2task = some "v" ∧
    c2req.required_capabilities ⊆ c2workerW.capabilities ∧
    ¬ c2req.required_capabilities ⊆ c2workerV.capabilities := by
  refine ⟨c2_find_best_wv, c2_find_best_vw, by decide, by decide⟩

/-- Witness for `C2_selected_worker_maximizes_score` at the concrete
counterexample worker set. -/
theorem C2_witness :
    ∃ p ∈ [("w", c2workerW), ("v", c2workerV)], p.1 = "v" ∧
      ∃ q, calculate_worker_score p.2 c2task.requirements = some q ∧ 0 < q ∧
        ∀ p2 ∈ [("w", c2workerW), ("v", c2workerV)], ∀ s,
          calculate_worker_score p2.2 c2task.requirements = some s → s ≤ q :=
  C2_selected_worker_maximizes_score [("w", c2workerW), ("v", c2workerV)] c2task "v"
    c2_find_best_wv

/-- C4 (amended): the selection is by strict score comparison only; a
worker tied on score never displaces an earlier one, so the winner of a tie
is whichever worker the (unspecified) map iteration order presents first --
not the lower-load or lexicographically-smaller one. -/
theorem C4_tie_breaks_by_iteration_order (id1 id2 : Uuid)
    (cfg1 cfg2 : EnhancedWorkerConfig) (task : EnhancedTask) (q : ℚ)
    (h1 : calculate_worker_score cfg1 task.requirements = some q)
    (h2 : calculate_worker_score cfg2 task.requirements = some q) (hq : 0 < q) :
    find_best_worker_for_task [(id1, cfg1), (id2, cfg2)] task = some id1 := by
  unfold find_best_worker_for_task
  simp [bestStep, h1, h2, hq, lt_irrefl]

/-- The C4 counterexample task (same requirements as `c1req`). -/
def c4task : EnhancedTask :=
  { id := "task-c4"
  , task_type := .Echo
  , payload := .null
  , requirements := c1req
  , created_at := "2024-01-01T00:00:00Z" }

theorem c4_score_eval : calculate_worker_score c1config c4task.requirements = some (3/5) := by
  rw [show c4task.requirements = c1req from rfl]
  exact c1_score_eval

/-- C4 counterexample: two identically-configured workers (equal scores,
equal loads) registered as `"a"` and `"b"`. The two lists hold the same
worker set, yet one iteration order selects `"b"` and the other selects
`"a"`: the selection is not a function of the worker set and no load or
worker-id tie-break exists. -/
theorem C4_counterexample_order_dependent :
    find_best_worker_for_task [("b", c1config), ("a", c1config)] c4task = some "b" ∧
    find_best_worker_for_task [("a", c1config), ("b", c1config)] c4task = some "a" ∧
    List.Perm [("b", c1config), ("a", c1config)] [("a", c1config), ("b", c1config)] := by
  refine ⟨?_, ?_, List.Perm.swap _ _ _⟩ <;>
    norm_num [find_best_worker_for_task, bestStep, c4_score_eval]

/-- Witness for `C4_tie_breaks_by_iteration_order` at a concrete tie. -/
theorem C4_witness :
    find_best_worker_for_task [("x", c1config), ("y", c1config)] c4task = some "x" :=
  C4_tie_breaks_by_iteration_order "x" "y" c1config c1config c4task (3/5)
    c4_score_eval c4_score_eval (by norm_num)

end Enhanced

/-! ## Claims about the core coordinator -/

/-- With the first worker's channel open and at least one pending task,
`distribute_pending_tasks` removes and sends exactly the queue head,
whatever the tasks' priorities are. Shared helper for the C3 and C9
theorems. -/
theorem distribute_head_when_open (c : SwarmCoordinator) (w : Uuid × WorkerHandle)
    (t : Task) (rest : List Task) (hw : c.workers.head? = some w)
    (ho : w.2.task_sender_open = true) (hq : c.task_queue = t :: rest) :
    distribute_pending_tasks c = ({ c with task_queue := rest }, some (w.1, t)) := by
  have hne : c.workers.isEmpty = false := by
    cases hcw : c.workers with
    | nil => rw [hcw] at hw; cases hw
    | cons a l => simp
  unfold distribute_pending_tasks
  rw [hq, hw]
  simp [hne, distributeLoop, ho, hq]

/-- Performance profile shared by the concrete core-coordinator states. -/
def sampleProfile : PerformanceProfile :=
  { avg_processing_time_ms := 100, memory_usage_mb := 256
  , cpu_intensity := 1/2, throughput_per_second := 10 }

/-- Concrete worker config `A` used by the C3/C6 states. -/
def cfgA : WorkerConfig :=
  { id := "w1", name := "worker-a", worker_type := .Custom "echo" "1"
  , max_concurrent_tasks := 4, capabilities := [], performance_profile := sampleProfile
  , health_check_interval_ms := 30000, shutdown_timeout_ms := 5000, metadata := [] }

/-- Concrete worker config `B`: differs from `A` in its name. -/
def cfgB : WorkerConfig := { cfgA with name := "worker-b" }

/-- Concrete worker config with `max_concurrent_tasks = 0`, for C9. -/
def cfgZero : WorkerConfig := { cfgA with id := "wz", max_concurrent_tasks := 0 }

/-- A pending `Low`-priority task submitted first. -/
def taskLow : Task :=
  { id := "task-low", task_type := .Custom "echo" "1", priority := .Low
  , status := .Pending, payload := .Custom [] "json"
  , created_at := "2024-01-01T00:00:00Z", deadline := none
  , retry_count := 0, max_retries := 3, metadata := [] }

/-- A pending `Critical`-priority task submitted second. -/
def taskCritical : Task :=
  { taskLow with
      id := "task-critical"
      priority := .Critical
      created_at := "2024-01-01T00:00:01Z" }

/-- Live handle for worker `w1`. -/
def handleA : WorkerHandle := { task_sender_open := true, worker_id := "w1", config := cfgA }

/-- Coordinator state for the C3 counterexample: one live worker, queue
holding the earlier `Low` task ahead of the later `Critical` task. -/
def coordC3 : SwarmCoordinator := { workers := [("w1", handleA)], task_queue := [taskLow, taskCritical] }

/-- C3 (amended): the coordinator's dispatch loop consumes the pending
queue strictly in submission (FIFO) order -- the task removed next is the
queue head -- and never consults `priority`; there is no
Critical→High→Normal→Low ordering. -/
theorem C3_dispatch_takes_queue_head (c : SwarmCoordinator) (w : Uuid × WorkerHandle)
    (t : Task) (rest : List Task) (hw : c.workers.head? = some w)
    (ho : w.2.task_sender_open = true) (hq : c.task_queue = t :: rest) :
    distribute_pending_tasks c = ({ c with task_queue := rest }, some (w.1, t)) :=
  distribute_head_when_open c w t rest hw ho hq

/-- Witness for `C3_dispatch_takes_queue_head` at the concrete state. -/
theorem C3_witness :
    distribute_pending_tasks coordC3 =
      ({ coordC3 with task_queue := [taskCritical] }, some ("w1", taskLow)) :=
  C3_dispatch_takes_queue_head coordC3 ("w1", handleA) taskLow [taskCritical] rfl rfl rfl

/-- C3 counterexample: with a `Critical` task pending, the coordinator
dispatches the earlier-submitted `Low` task and leaves the `Critical` one
in the queue. -/
theorem C3_counterexample_priority_ignored :
    (distribute_pending_tasks coordC3).2 = some ("w1", taskLow) ∧
    taskLow.priority = .Low ∧ taskCritical.priority = .Critical ∧
    (distribute_pending_tasks coordC3).1.task_queue = [taskCritical] :=
  ⟨rfl, rfl, rfl, rfl⟩

/-- The empty coordinator. -/
def coordEmpty : SwarmCoordinator := { workers := [], task_queue := [] }

/-- Coordinator with worker `"w1"` already registered under config `A`. -/
def coordC6 : SwarmCoordinator := (register_worker coordEmpty "w1" cfgA).1

/-- C6 (amended): `register_worker` never fails; it stores a handle for the
given config (its `WorkerHandle` carries no status field, so no `Starting`
status exists) and returns the receiver of a freshly created *unbounded*
channel -- not a bounded one of capacity `max_concurrent_tasks`.
Registering an already-present ID silently replaces the existing record. -/
theorem C6_register_always_inserts (c : SwarmCoordinator) (worker_id : Uuid) (config : WorkerConfig) :
    hashMapGet ((register_worker c worker_id config).1).workers worker_id =
      some { task_sender_open := true, worker_id := worker_id, config := config } ∧
    (register_worker c worker_id config).2.kind = ChannelKind.unbounded ∧
    ((register_worker c worker_id config).1).task_queue = c.task_queue := by
  refine ⟨?_, rfl, rfl⟩
  simp [register_worker, hashMapGet, hashMapInsert]

/-- C6 counterexample: registering `"w1"` a second time succeeds and
replaces config `A` with config `B` (the claim requires failure with the
old record kept). -/
theorem C6_counterexample_duplicate_replaced :
    hashMapGet ((register_worker coordC6 "w1" cfgB).1).workers "w1" =
      some { task_sender_open := true, worker_id := "w1", config := cfgB } ∧
    cfgB ≠ cfgA := by
  constructor
  · rfl
  · intro h
    exact absurd (congrArg WorkerConfig.name h) (by decide)

/-- Live handle for the zero-capacity worker. -/
def handleZero : WorkerHandle := { task_sender_open := true, worker_id := "wz", config := cfgZero }

/-- Coordinator state for C9: only worker is the zero-capacity one. -/
def coordC9 : SwarmCoordinator := { workers := [("wz", handleZero)], task_queue := [taskLow] }

/-- C9 (amended): a worker with `max_concurrent_tasks = 0` indeed never has
capacity (`has_capacity` is false at every load), but
`distribute_pending_tasks` never consults `has_capacity` (or the config at
all), so such a worker is still sent tasks. -/
theorem C9_zero_capacity_still_dispatched :
    (∀ current_load, has_capacity current_load 0 = false) ∧
    (∀ (c : SwarmCoordinator) (w : Uuid × WorkerHandle) (t : Task) (rest : List Task),
      c.workers.head? = some w → w.2.task_sender_open = true →
      w.2.config.max_concurrent_tasks = 0 → c.task_queue = t :: rest →
      (distribute_pending_tasks c).2 = some (w.1, t)) := by
  constructor
  · intro current_load
    simp [has_capacity]
  · intro c w t rest hw ho _ hq
    rw [distribute_head_when_open c w t rest hw ho hq]

/-- Witness for `C9_zero_capacity_still_dispatched` at the concrete state. -/
theorem C9_witness :
    has_capacity 3 0 = false ∧ (distribute_pending_tasks coordC9).2 = some ("wz", taskLow) :=
  ⟨C9_zero_capacity_still_dispatched.1 3,
   C9_zero_capacity_still_dispatched.2 coordC9 ("wz", handleZero) taskLow [] rfl rfl rfl rfl⟩

/-- C9 counterexample: the zero-capacity worker receives the pending task. -/
theorem C9_counterexample_delivery :
    cfgZero.max_concurrent_tasks = 0 ∧
    (distribute_pending_tasks coordC9).2 = some ("wz", taskLow) :=
  ⟨rfl, rfl⟩

/-! ## Claims about the comms layer -/

/-- C5: `publish_message` returns `MessageTooLarge` -- carrying exactly the
serialized length and the configured maximum -- if and only if the
serialized envelope is strictly longer than `max_message_size`; a message
of exactly `max_message_size` bytes is never rejected as too large, one
byte more always is. -/
theorem C5_message_too_large_iff (serializeBytes : ByteMessage → List ℕ)
    (cfg : NatsConfig) (transportOk : Bool) (message : ByteMessage) :
    (publish_message serializeBytes cfg transportOk message =
        .messageTooLarge (serializeBytes message).length cfg.max_message_size ↔
      cfg.max_message_size < (serializeBytes message).length) ∧
    (∀ size max_size,
      publish_message serializeBytes cfg transportOk message = .messageTooLarge size max_size →
      size = (serializeBytes message).length ∧ max_size = cfg.max_message_size ∧
        cfg.max_message_size < (serializeBytes message).length) := by
  unfold publish_message
  by_cases h : (serializeBytes message).length > cfg.max_message_size
  · rw [if_pos h]
    exact ⟨⟨fun _ => h, fun _ => rfl⟩,
      fun size max_size hEq => by
        injection hEq with h1 h2
        exact ⟨h1.symm, h2.symm, h⟩⟩
  · rw [if_neg h]
    constructor
    · constructor
      · intro hEq
        cases transportOk <;> simp at hEq
      · intro hlt
        exact absurd hlt h
    · intro size max_size hEq
      cases transportOk <;> simp at hEq

/-- Concrete message for the C5 witness: 3-byte payload. -/
def msgC5 : ByteMessage :=
  { id := "msg-c5", subject := "swarm.test", payload := [0, 0, 0]
  , headers := [], timestamp := "2024-01-01T00:00:00Z", ttl_ms := none }

/-- Tiny broker config for the C5 witness: 2-byte limit. -/
def cfgC5 : NatsConfig := { NatsConfig.default with max_message_size := 2 }

/-- Witness for `C5_message_too_large_iff`: with a 3-byte serialization and
a 2-byte limit the publish is rejected with `MessageTooLarge 3 2`. -/
theorem C5_witness :
    publish_message (fun m => m.payload) cfgC5 true msgC5 = .messageTooLarge 3 2 ∧
    (3 : ℕ) = (((fun (m : ByteMessage) => m.payload) msgC5).length) ∧ (2 : ℕ) = cfgC5.max_message_size :=
  ⟨rfl, ((C5_message_too_large_iff (fun m => m.payload) cfgC5 true msgC5).2 3 2 rfl).1,
    ((C5_message_too_large_iff (fun m => m.payload) cfgC5 true msgC5).2 3 2 rfl).2.1⟩

/-- C7: serializing a `Document`, `Task` or `TaskResult` into an envelope
and deserializing the envelope's payload yields the original value
(structural equality), for every value and every fresh envelope id and
timestamp. -/
theorem C7_serialization_roundtrip :
    (∀ (freshId : Uuid) (now : UtcTime) (d : Document),
      deserialize_document (serialize_document freshId now d) = some d) ∧
    (∀ (freshId : Uuid) (now : UtcTime) (t : Task),
      deserialize_task (serialize_task freshId now t) = some t) ∧
    (∀ (freshId : Uuid) (now : UtcTime) (r : TaskResult),
      deserialize_task_result (serialize_task_result freshId now r) = some r) := by
  refine ⟨fun _ _ d => ?_, fun _ _ t => ?_, fun _ _ r => ?_⟩
  · simp [deserialize_document, serialize_document]
  · simp [deserialize_task, serialize_task]
  · simp [deserialize_task_result, serialize_task_result]

/-- C8: TTL validation accepts a message exactly when it has no TTL or a
TTL in `1..=3_600_000`; a present TTL of `0` or above an hour is
rejected. -/
theorem C8_ttl_validation_iff (message : ByteMessage) :
    validate_message_ttl message = .ok () ↔
      (message.ttl_ms = none ∨
        ∃ t, message.ttl_ms = some t ∧ 1 ≤ t ∧ t ≤ 3600000) := by
  unfold validate_message_ttl
  cases h : message.ttl_ms with
  | none => simp
  | some t =>
      simp only [Option.some.injEq, reduceCtorEq, false_or, exists_eq_left']
      split_ifs with h0 h1 <;> simp <;> omega

/-- Concrete message for the C8 witness: TTL of 1000 ms. -/
def msgC8 : ByteMessage :=
  { id := "msg-c8", subject := "swarm.test", payload := [1]
  , headers := [], timestamp := "2024-01-01T00:00:00Z", ttl_ms := some 1000 }

/-- Witness for `C8_ttl_validation_iff`: a 1000 ms TTL is accepted. -/
theorem C8_witness : validate_message_ttl msgC8 = .ok () :=
  (C8_ttl_validation_iff msgC8).mpr (Or.inr ⟨1000, rfl, by omega, by omega⟩)

/-- C10: size validation accepts exactly when payload bytes + subject bytes
+ header-value bytes fit in `max_size`; header keys, `id`, `timestamp` and
`ttl_ms` contribute nothing (changing them never changes the verdict). -/
theorem C10_size_validation_iff (message : ByteMessage) (max_size : ℕ) :
    (validate_message_size message max_size = .ok () ↔
      message.payload.length + message.subject.utf8ByteSize +
        (message.headers.map (fun p => p.2.utf8ByteSize)).sum ≤ max_size) ∧
    (∀ (id' : Uuid) (ts' : UtcTime) (ttl' : Option ℕ),
      validate_message_size { message with id := id', timestamp := ts', ttl_ms := ttl' } max_size =
        validate_message_size message max_size) := by
  refine ⟨?_, fun _ _ _ => rfl⟩
  unfold validate_message_size
  by_cases h : message.payload.length + message.subject.utf8ByteSize +
      (message.headers.map (fun p => p.2.utf8ByteSize)).sum > max_size
  · rw [if_pos h]
    simp
    omega
  · rw [if_neg h]
    simp
    omega

/-- Concrete message for the C10 witness. -/
def msgC10 : ByteMessage :=
  { id := "msg-c10", subject := "s", payload := [0, 1, 2]
  , headers := [("k", "vv")], timestamp := "2024-01-01T00:00:00Z", ttl_ms := none }

/-- Witness for `C10_size_validation_iff`: payload 3 + subject 1 + header
values 2 = 6 ≤ 100 is accepted. -/
theorem C10_witness : validate_message_size msgC10 100 = .ok () :=
  (C10_size_validation_iff msgC10 100).1.mpr (by decide)

end AprioSwarm
